import Mathlib

/-!
Shallow embedding of the bibtools metadata resolution & verification engine
(src/bibtools: utils.py, models.py, venue_aliases.py, fetcher.py, verifier.py),
together with theorems settling the claims about its specification.

String functions are modelled over ASCII on explicit character lists so that
every definition is executable by the kernel.  Standard-library behaviour
(Python str.lower, str.split, int(), re substitutions restricted to the
patterns the source uses) is implemented directly; external effects (HTTP
clients, datetime.now, difflib ratios) are passed in as explicit oracle
parameters.
-/

namespace Bibtools

-- ==========================================================================
-- Basic Python string semantics (ASCII model)
-- ==========================================================================

/-- The brace characters, referred to by code point. -/
def lbrace : Char := Char.ofNat 123

def rbrace : Char := Char.ofNat 125

/-- Python whitespace characters recognised by str.split()/str.strip(). -/
def isPyWs (c : Char) : Bool :=
  c == ' ' || c == '\t' || c == '\n' || c == '\r' || c == Char.ofNat 11 || c == Char.ofNat 12

def isAsciiLetter (c : Char) : Bool :=
  ('a' ≤ c && c ≤ 'z') || ('A' ≤ c && c ≤ 'Z')

def isAsciiDigit (c : Char) : Bool :=
  '0' ≤ c && c ≤ '9'

/-- ASCII model of Python str.lower applied to one character. -/
def pyLowerChar (c : Char) : Char :=
  if 'A' ≤ c && c ≤ 'Z' then Char.ofNat (c.toNat + 32) else c

/-- ASCII model of Python str.lower. -/
def pyLowerStr (s : String) : String :=
  String.mk (s.toList.map pyLowerChar)

/-- Split a character list into maximal whitespace-free words, as Python
str.split() with no argument does. -/
def wordsAux : List Char → List Char → List (List Char)
  | [], cur => if cur = [] then [] else [cur.reverse]
  | c :: rest, cur =>
    if isPyWs c then
      if cur = [] then wordsAux rest [] else cur.reverse :: wordsAux rest []
    else wordsAux rest (c :: cur)

def pyWords (l : List Char) : List (List Char) := wordsAux l []

def joinSpace : List (List Char) → List Char
  | [] => []
  | [w] => w
  | w :: rest => w ++ ' ' :: joinSpace rest

/-- Model of the idiom " ".join(s.split()): collapse whitespace runs. -/
def normalizeWs (l : List Char) : List Char := joinSpace (pyWords l)

def normalizeWsStr (s : String) : String := String.mk (normalizeWs s.toList)

/-- Model of Python str.strip(). -/
def pyStripL (l : List Char) : List Char :=
  ((l.dropWhile isPyWs).reverse.dropWhile isPyWs).reverse

def pyStripStr (s : String) : String := String.mk (pyStripL s.toList)

/-- Python truthiness of a string: nonempty. -/
def truthyS (s : String) : Bool := s ≠ ""

/-- Python truthiness of an optional string field. -/
def truthyOS : Option String → Bool
  | none => false
  | some s => truthyS s

/-- Python truthiness of an optional int field (0 is falsy). -/
def truthyOI : Option Int → Bool
  | none => false
  | some n => n ≠ 0

def startsWithL : List Char → List Char → Bool
  | [], _ => true
  | _ :: _, [] => false
  | p :: ps, c :: cs => p == c && startsWithL ps cs

/-- Does the pattern start the string? (used for Python str.startswith) -/
def startsWithStr (s pat : String) : Bool := startsWithL pat.toList s.toList

/-- Python substring membership, pat in l. -/
def hasSubL (l pat : List Char) : Bool :=
  match l with
  | [] => pat.isEmpty
  | _ :: rest => startsWithL pat l || hasSubL rest pat

def hasSubstr (s pat : String) : Bool := hasSubL s.toList pat.toList

/-- Remove trailing '.' characters, as Python str.rstrip("."). -/
def rstripDots (s : String) : String :=
  String.mk ((s.toList.reverse.dropWhile (· == '.')).reverse)

def joinSep (sep : String) : List String → String
  | [] => ""
  | a :: rest => rest.foldl (fun acc x => acc ++ sep ++ x) a

/-- Digit run of a Python int literal: digits with single underscores
allowed between digits. -/
def pyIntRest : List Char → Bool
  | [] => true
  | '_' :: c :: rest => c.isDigit && pyIntRest rest
  | '_' :: [] => false
  | c :: rest => c.isDigit && pyIntRest rest

def pyIntDigits : List Char → Bool
  | [] => false
  | c :: rest => c.isDigit && pyIntRest rest

def digitsVal (l : List Char) : Int :=
  (l.filter (· ≠ '_')).foldl (fun acc c => acc * 10 + (c.toNat - '0'.toNat : Int)) 0

/-- ASCII model of Python int(str): optional surrounding whitespace,
optional sign, digits (with underscores between digits); None models
ValueError. -/
def pyInt? (s : String) : Option Int :=
  match pyStripL s.toList with
  | '+' :: rest => if pyIntDigits rest then some (digitsVal rest) else none
  | '-' :: rest => if pyIntDigits rest then some (-(digitsVal rest)) else none
  | l => if pyIntDigits l then some (digitsVal l) else none

-- ==========================================================================
-- utils.py : field comparison helpers
-- ==========================================================================

/-- utils.strip_latex_braces: remove the brace and dollar characters and
collapse whitespace. -/
def strip_latex_braces (title : String) : String :=
  normalizeWsStr (String.mk (title.toList.filter (fun c => c ≠ lbrace ∧ c ≠ rbrace ∧ c ≠ '$')))

/-- utils.compare_titles: exact raw match passes, case/brace-insensitive
match is a warning, anything else is a mismatch. -/
def compare_titles (bib_title ss_title : String) : Bool × Bool :=
  if bib_title = ss_title then (true, false)
  else if pyLowerStr (strip_latex_braces bib_title) = pyLowerStr (strip_latex_braces ss_title) then
    (true, true)
  else (false, false)

/-- One pass of re.sub over the pattern backslash-letters: drop each
backslash together with the maximal letter run that follows it. -/
def stripLatexCmdsAux : Nat → List Char → List Char
  | 0, l => l
  | _ + 1, [] => []
  | fuel + 1, c :: rest =>
    if c = '\\' then
      if rest.takeWhile isAsciiLetter = [] then c :: stripLatexCmdsAux fuel rest
      else stripLatexCmdsAux fuel (rest.dropWhile isAsciiLetter)
    else c :: stripLatexCmdsAux fuel rest

def stripLatexCmds (l : List Char) : List Char := stripLatexCmdsAux l.length l

/-- utils.normalize_author_name: drop LaTeX commands and braces, collapse
whitespace, and rewrite "Family, Given" as "Given Family"; case preserved. -/
def normalize_author_name (name : String) : String :=
  let l := stripLatexCmds name.toList
  let l := l.filter (fun c => c ≠ lbrace ∧ c ≠ rbrace)
  let s := normalizeWs l
  if s.contains ',' then
    let before := s.takeWhile (· ≠ ',')
    let after := (s.dropWhile (· ≠ ',')).tail
    pyStripStr (String.mk after) ++ " " ++ pyStripStr (String.mk before)
  else String.mk s

/-- Try to match the regex of one whitespace run, "and" (case-insensitive),
one whitespace run at the head of the list; return the rest on success. -/
def andMatchTail (l : List Char) : Option (List Char) :=
  if l.takeWhile isPyWs = [] then none
  else
    match l.dropWhile isPyWs with
    | a :: n :: d :: rest =>
      if pyLowerChar a = 'a' ∧ pyLowerChar n = 'n' ∧ pyLowerChar d = 'd' then
        if rest.takeWhile isPyWs = [] then none
        else some (rest.dropWhile isPyWs)
      else none
    | _ => none

/-- re.split over the separator whitespace-"and"-whitespace, leftmost
non-overlapping matches. -/
def reSplitAndAux : Nat → List Char → List Char → List String
  | 0, l, cur => [String.mk (cur.reverse ++ l)]
  | _ + 1, [], cur => [String.mk cur.reverse]
  | fuel + 1, c :: rest, cur =>
    match andMatchTail (c :: rest) with
    | some remainder => String.mk cur.reverse :: reSplitAndAux fuel remainder []
    | none => reSplitAndAux fuel rest (c :: cur)

/-- utils.parse_bibtex_authors: split the author field on " and "
(case-insensitive), strip the pieces and drop empty ones. -/
def parse_bibtex_authors (author_field : String) : List String :=
  if truthyS author_field = false then []
  else
    ((reSplitAndAux author_field.toList.length author_field.toList []).map pyStripStr).filter
      truthyS

def joinAnd (ss : List String) : String := joinSep " and " ss

/-- utils.compare_authors: raw-joined equality passes; otherwise equal
counts and pairwise equality after normalize_author_name is a warning;
anything else a mismatch. -/
def compare_authors (bib_author_field : String) (ss_authors : List String) : Bool × Bool :=
  let ss_author_str := joinAnd ss_authors
  if bib_author_field = ss_author_str then (true, false)
  else
    let bib_authors := parse_bibtex_authors bib_author_field
    if bib_authors.length ≠ ss_authors.length then (false, false)
    else if (bib_authors.zip ss_authors).all
        (fun p => normalize_author_name p.1 == normalize_author_name p.2) then (true, true)
    else (false, false)

/-- utils.format_author_bibtex_style. -/
def format_author_bibtex_style (given family : String) : String :=
  family ++ ", " ++ given

-- ==========================================================================
-- venue_aliases.py
-- ==========================================================================

/-- venue_aliases.VENUE_ALIASES, in source order. -/
def VENUE_ALIASES : List (String × List String) :=
  [ ("CoRL", ["corl", "conference on robot learning"]),
    ("ICRA", ["icra", "ieee international conference on robotics and automation",
              "international conference on robotics and automation"]),
    ("IROS", ["iros", "ieee/rsj international conference on intelligent robots and systems",
              "intelligent robots and systems"]),
    ("RSS", ["rss", "robotics: science and systems"]),
    ("RA-L", ["ral", "ra-l", "ieee robotics and automation letters"]),
    ("IJRR", ["ijrr", "international journal of robotics research"]),
    ("TRO", ["tro", "ieee transactions on robotics"]),
    ("NeurIPS", ["neurips", "nips", "neural information processing systems",
                 "advances in neural information processing systems"]),
    ("ICML", ["icml", "international conference on machine learning"]),
    ("ICLR", ["iclr", "international conference on learning representations"]),
    ("AAAI", ["aaai", "aaai conference on artificial intelligence"]),
    ("IJCAI", ["ijcai", "international joint conference on artificial intelligence"]),
    ("JMLR", ["jmlr", "journal of machine learning research"]),
    ("TMLR", ["tmlr", "transactions on machine learning research",
              "trans. mach. learn. res.", "trans mach learn res"]),
    ("CVPR", ["cvpr", "ieee/cvf conference on computer vision and pattern recognition",
              "ieee conference on computer vision and pattern recognition",
              "conference on computer vision and pattern recognition"]),
    ("ICCV", ["iccv", "ieee/cvf international conference on computer vision",
              "ieee international conference on computer vision"]),
    ("ECCV", ["eccv", "european conference on computer vision"]),
    ("TPAMI", ["tpami", "ieee transactions on pattern analysis and machine intelligence"]),
    ("ACL", ["acl", "annual meeting of the association for computational linguistics",
             "association for computational linguistics"]),
    ("EMNLP", ["emnlp", "empirical methods in natural language processing",
               "conference on empirical methods in natural language processing"]),
    ("NAACL", ["naacl", "north american chapter of the association for computational linguistics"]),
    ("TACL", ["tacl", "transactions of the association for computational linguistics"]),
    ("Nature", ["nature"]),
    ("Science", ["science"]),
    ("arXiv", ["arxiv", "arxiv preprint"]) ]

/-- venue_aliases.normalize_venue: lowercase and strip. -/
def normalize_venue (venue : String) : String := pyStripStr (pyLowerStr venue)

/-- venue_aliases.get_canonical_venue. -/
def get_canonical_venue (venue : String) : Option String :=
  let normalized := normalize_venue venue
  (VENUE_ALIASES.find? (fun p => p.2.contains normalized)).map (·.1)

/-- venue_aliases.venues_match. -/
def venues_match (venue1 venue2 : String) : Bool :=
  let norm1 := normalize_venue venue1
  let norm2 := normalize_venue venue2
  if norm1 = norm2 then true
  else
    match get_canonical_venue venue1, get_canonical_venue venue2 with
    | some c1, some c2 => c1 == c2
    | c1, c2 =>
      (match c1 with
       | some a => hasSubstr norm2 (pyLowerStr a)
       | none => false) ||
      (match c2 with
       | some b => hasSubstr norm1 (pyLowerStr b)
       | none => false) ||
      VENUE_ALIASES.any (fun p =>
        p.2.any (fun a => hasSubL norm1.toList a.toList) &&
        p.2.any (fun a => hasSubL norm2.toList a.toList))

/-- utils.compare_venues. -/
def compare_venues (bib_venue ss_venue : String) : Bool × Bool :=
  if bib_venue = ss_venue then (true, false)
  else if venues_match bib_venue ss_venue then (true, true)
  else (false, false)

-- ==========================================================================
-- models.py : data model
-- ==========================================================================

/-- Modelled from the spec: the Author record {given, family}.  The source
imports Author from models.py, whose revision in src declares authors only
as dicts with the keys given and family; the spec data model defines the
record explicitly. -/
structure Author where
  given : String
  family : String
deriving DecidableEq, Repr

/-- models.PaperMetadata: the unified record produced by exactly one
provider. -/
structure PaperMetadata where
  title : String
  authors : List Author
  year : Option Int
  venue : Option String
  doi : Option String := none
  arxiv_id : Option String := none
  source : String := ""
deriving DecidableEq, Repr

/-- models.FieldMismatch.  The similarity score (a difflib float in the
source) is modelled as a rational. -/
structure FieldMismatch where
  field_name : String
  bibtex_value : String
  fetched_value : String
  source : String := ""
  similarity : Option Rat := none
  is_warning : Bool := false
deriving DecidableEq, Repr

/-- models.VerificationStatus (an IntEnum in the source). -/
inductive VerificationStatus where
  | PASS
  | WARNING
  | FAIL
deriving DecidableEq, Repr

/-- The numeric value of a VerificationStatus: PASS=0, WARNING=1, FAIL=2. -/
def statusValue : VerificationStatus → Int
  | .PASS => 0
  | .WARNING => 1
  | .FAIL => 2

/-- models.VerificationResult.  The verifier and the tests use the field
`metadata`; the models.py revision in src declares `paper_info` in its
place, so the field consumed by the verifier is kept here. -/
structure VerificationResult where
  entry_key : String
  success : Bool
  message : String
  metadata : Option PaperMetadata := none
  already_verified : Bool := false
  needs_update : Bool := false
  no_paper_id : Bool := false
  paper_id_used : Option String := none
  auto_found_paper_id : Bool := false
  paper_id_source : Option String := none
  mismatches : List FieldMismatch := []
  warnings : List FieldMismatch := []
  fixed : Bool := false
deriving DecidableEq, Repr

/-- models.VerificationResult.status. -/
def VerificationResult.status (r : VerificationResult) : VerificationStatus :=
  if r.mismatches ≠ [] ∧ r.fixed = false then .FAIL
  else if r.success = false ∧ r.already_verified = false ∧ r.no_paper_id = false then .FAIL
  else if r.warnings ≠ [] then .WARNING
  else if r.no_paper_id then .WARNING
  else .PASS

/-- models.VerificationReport. -/
structure VerificationReport where
  total_entries : Nat := 0
  verified : Nat := 0
  verified_with_warnings : Nat := 0
  already_verified : Nat := 0
  failed : Nat := 0
  no_paper_id : Nat := 0
  fixed : Nat := 0
  results : List VerificationResult := []
deriving DecidableEq, Repr

def emptyReport : VerificationReport := {}

/-- models.VerificationReport.add_result. -/
def add_result (rep : VerificationReport) (r : VerificationResult) : VerificationReport :=
  let base := { rep with results := rep.results ++ [r], total_entries := rep.total_entries + 1 }
  if r.already_verified then { base with already_verified := base.already_verified + 1 }
  else if r.no_paper_id then { base with no_paper_id := base.no_paper_id + 1 }
  else if r.fixed then { base with fixed := base.fixed + 1 }
  else if r.success then
    if r.warnings ≠ [] then
      { base with verified_with_warnings := base.verified_with_warnings + 1 }
    else { base with verified := base.verified + 1 }
  else { base with failed := base.failed + 1 }

/-- models.VerificationReport.overall_status. -/
def overall_status (rep : VerificationReport) : VerificationStatus :=
  if rep.failed > 0 then .FAIL
  else if rep.verified_with_warnings > 0 ∨ rep.no_paper_id > 0 then .WARNING
  else .PASS

/-- models.VerificationReport.exit_code, int(overall_status). -/
def exit_code (rep : VerificationReport) : Int := statusValue (overall_status rep)

/-- The classification bucket a result falls into inside add_result
(the elif chain). -/
inductive Bucket where
  | alreadyVerifiedB
  | noPaperIdB
  | fixedB
  | verifiedWarnB
  | verifiedB
  | failedB
deriving DecidableEq, Repr

def bucketOf (r : VerificationResult) : Bucket :=
  if r.already_verified then .alreadyVerifiedB
  else if r.no_paper_id then .noPaperIdB
  else if r.fixed then .fixedB
  else if r.success then
    if r.warnings ≠ [] then .verifiedWarnB else .verifiedB
  else .failedB

/-- A report built by adding a list of results to a fresh report. -/
def reportOf (rs : List VerificationResult) : VerificationReport :=
  rs.foldl add_result emptyReport

-- ==========================================================================
-- fetcher.py : provider records, source selection
-- ==========================================================================

/-- fetcher.CrossRefMetadata. -/
structure CrossRefMetadata where
  title : String
  authors : List Author
  venue : Option String
  year : Option Int
  doi : String
deriving DecidableEq, Repr

/-- fetcher.DBLPMetadata. -/
structure DBLPMetadata where
  title : String
  authors : List Author
  year : Int
  venue : String
  dblp_key : String
  doi : Option String := none
deriving DecidableEq, Repr

/-- fetcher.ArxivMetadata. -/
structure ArxivMetadata where
  title : String
  authors : List Author
  year : Int
  arxiv_id : String
  venue : String := "arXiv"
deriving DecidableEq, Repr

/-- semantic_scholar.ResolvedIds. -/
structure ResolvedIds where
  paper_id : String
  doi : Option String
  arxiv_id : Option String
  dblp_id : Option String
  venue : Option String := none
  title : Option String := none
deriving DecidableEq, Repr

/-- The three metadata providers the fetcher can query. -/
inductive Provider where
  | crossref
  | dblp
  | arxiv
deriving DecidableEq, Repr

/-- The provider clients, abstracted as oracles: each call either raises a
provider error (modelled by the error message) or returns an optional
record, exactly the behaviour of the client get/search methods. -/
structure ProviderOracles where
  crossref : String → Except String (Option CrossRefMetadata)
  dblpSearch : String → Option String → Except String (Option DBLPMetadata)
  arxiv : String → Except String (Option ArxivMetadata)

/-- fetcher.MetadataFetcher._is_arxiv_venue. -/
def is_arxiv_venue (venue : Option String) : Bool :=
  if truthyOS venue = false then true
  else
    let venue_lower := pyLowerStr (venue.getD "")
    hasSubstr venue_lower "arxiv" || venue_lower == "" || venue_lower == "corr"

/-- The PaperMetadata built in the CrossRef branch of _fetch_with_resolved. -/
def crossrefToPaper (meta : CrossRefMetadata) (resolved : ResolvedIds) : PaperMetadata :=
  { title := meta.title, authors := meta.authors, year := meta.year, venue := meta.venue,
    doi := some meta.doi, arxiv_id := resolved.arxiv_id, source := "crossref" }

/-- The PaperMetadata built in the DBLP branch of _fetch_with_resolved. -/
def dblpToPaper (meta : DBLPMetadata) (resolved : ResolvedIds) : PaperMetadata :=
  { title := meta.title, authors := meta.authors, year := some meta.year,
    venue := some meta.venue, doi := meta.doi, arxiv_id := resolved.arxiv_id, source := "dblp" }

/-- The PaperMetadata built in the arXiv branch of _fetch_with_resolved. -/
def arxivToPaper (meta : ArxivMetadata) : PaperMetadata :=
  { title := meta.title, authors := meta.authors, year := some meta.year,
    venue := some meta.venue, doi := none, arxiv_id := some meta.arxiv_id, source := "arxiv" }

/-- fetcher.MetadataFetcher._fetch_with_resolved, instrumented with the
list of providers actually queried.  Errors raised by a client propagate
out of this function unchanged. -/
def fetchWithResolved (p : ProviderOracles) (resolved : ResolvedIds) :
    Except String (Option PaperMetadata) × List Provider :=
  if truthyOS resolved.doi then
    match p.crossref (resolved.doi.getD "") with
    | .error e => (.error e, [Provider.crossref])
    | .ok (some meta) => (.ok (some (crossrefToPaper meta resolved)), [Provider.crossref])
    | .ok none => (.ok none, [Provider.crossref])
  else if is_arxiv_venue resolved.venue = false then
    if truthyOS resolved.title then
      match p.dblpSearch (resolved.title.getD "") resolved.venue with
      | .error e => (.error e, [Provider.dblp])
      | .ok (some meta) => (.ok (some (dblpToPaper meta resolved)), [Provider.dblp])
      | .ok none => (.ok none, [Provider.dblp])
    else (.ok none, [])
  else
    if truthyOS resolved.arxiv_id then
      match p.arxiv (resolved.arxiv_id.getD "") with
      | .error e => (.error e, [Provider.arxiv])
      | .ok (some meta) => (.ok (some (arxivToPaper meta)), [Provider.arxiv])
      | .ok none => (.ok none, [Provider.arxiv])
    else (.ok none, [])

-- ==========================================================================
-- verifier.py : per-entry verification
-- ==========================================================================

/-- A parsed bibtex entry as the verifier consumes it: each field holds the
entry.get value with its source default ("" for the string fields, so a
missing field is the empty string, and "unknown" stands in for a missing
entry key at the call sites). -/
structure BibEntry where
  ID : String := "unknown"
  title : String := ""
  author : String := ""
  year : String := ""
  journal : String := ""
  booktitle : String := ""
deriving DecidableEq, Repr

/-- Modelled from the spec: PaperMetadata.get_authors_str, called by the
verifier but absent from the models.py revision in src; its callers
document the "Family, Given and ..." format, which is exactly
" and ".join over utils.format_authors_list. -/
def get_authors_str (m : PaperMetadata) : String :=
  joinAnd (m.authors.map (fun a => format_author_bibtex_style a.given a.family))

/-- verifier.BibVerifier._should_skip_verified.  The datetime library is
abstracted by age_days, which returns the age in days of a date string, or
none when strptime raises ValueError. -/
def should_skip_verified (max_age_days : Option Int) (age_days : String → Option Int)
    (date_str : Option String) : Bool :=
  match max_age_days with
  | none => true
  | some m =>
    if m = 0 then false
    else if truthyOS date_str = false then false
    else
      match age_days (date_str.getD "") with
      | none => false
      | some age => decide (age ≤ m)

/-- The title block of _check_field_mismatches; sim abstracts
utils.title_similarity (a difflib ratio). -/
def title_check (sim : String → String → Rat) (entry : BibEntry) (metadata : PaperMetadata) :
    List FieldMismatch × List FieldMismatch :=
  if truthyS entry.title && truthyS metadata.title then
    match compare_titles entry.title metadata.title with
    | (false, _) =>
      ([{ field_name := "title", bibtex_value := entry.title, fetched_value := metadata.title,
          source := metadata.source, similarity := some (sim entry.title metadata.title),
          is_warning := false }], [])
    | (true, true) =>
      ([], [{ field_name := "title", bibtex_value := entry.title,
              fetched_value := metadata.title, source := metadata.source, is_warning := true }])
    | (true, false) => ([], [])
  else ([], [])

/-- The author block of _check_field_mismatches (the Python locals
api_author_str and author_names are inlined). -/
def author_check (entry : BibEntry) (metadata : PaperMetadata) :
    List FieldMismatch × List FieldMismatch :=
  if truthyS entry.author && !metadata.authors.isEmpty then
    match compare_authors entry.author
        (metadata.authors.map (fun a => format_author_bibtex_style a.given a.family)) with
    | (false, _) =>
      ([{ field_name := "author", bibtex_value := entry.author,
          fetched_value := get_authors_str metadata, source := metadata.source,
          is_warning := false }], [])
    | (true, true) =>
      ([], [{ field_name := "author", bibtex_value := entry.author,
              fetched_value := get_authors_str metadata, source := metadata.source,
              is_warning := true }])
    | (true, false) => ([], [])
  else ([], [])

/-- The year block of _check_field_mismatches: int(bib_year) is attempted,
and a ValueError (pyInt? = none) silently skips the comparison. -/
def year_check (entry : BibEntry) (metadata : PaperMetadata) :
    List FieldMismatch × List FieldMismatch :=
  if truthyS entry.year && truthyOI metadata.year then
    match metadata.year with
    | some my =>
      match pyInt? entry.year with
      | some bibYear =>
        if bibYear ≠ my then
          ([{ field_name := "year", bibtex_value := toString bibYear,
              fetched_value := toString my, source := metadata.source }], [])
        else ([], [])
      | none => ([], [])
    | none => ([], [])
  else ([], [])

/-- The Python local bib_venue: journal or booktitle, first truthy wins. -/
def bibVenueOf (entry : BibEntry) : String :=
  if truthyS entry.journal then entry.journal else entry.booktitle

/-- The venue block of _check_field_mismatches. -/
def venue_check (entry : BibEntry) (metadata : PaperMetadata) :
    List FieldMismatch × List FieldMismatch :=
  if truthyS (bibVenueOf entry) && truthyOS metadata.venue then
    match compare_venues (bibVenueOf entry) (metadata.venue.getD "") with
    | (false, _) =>
      ([{ field_name := "venue", bibtex_value := bibVenueOf entry,
          fetched_value := metadata.venue.getD "", source := metadata.source,
          is_warning := false }], [])
    | (true, true) =>
      ([], [{ field_name := "venue", bibtex_value := bibVenueOf entry,
              fetched_value := metadata.venue.getD "", source := metadata.source,
              is_warning := true }])
    | (true, false) => ([], [])
  else ([], [])

/-- verifier.BibVerifier._check_field_mismatches: the four blocks run in
order title, author, year, venue, appending to the two lists. -/
def check_field_mismatches (sim : String → String → Rat) (entry : BibEntry)
    (metadata : PaperMetadata) : List FieldMismatch × List FieldMismatch :=
  let t := title_check sim entry metadata
  let a := author_check entry metadata
  let y := year_check entry metadata
  let v := venue_check entry metadata
  (t.1 ++ a.1 ++ y.1 ++ v.1, t.2 ++ a.2 ++ y.2 ++ v.2)

/-- The "given family" display string built in _check_arxiv_cross_match. -/
def spaceJoinedName (a : Author) : String := pyStripStr (a.given ++ " " ++ a.family)

/-- verifier.BibVerifier._check_arxiv_cross_match: any exception from the
arXiv fetch is swallowed (the check is skipped); an author-list difference
after normalization yields the mismatch message. -/
def check_arxiv_cross_match (arxivRes : Except String (Option ArxivMetadata))
    (metadata : PaperMetadata) : Option String :=
  match arxivRes with
  | .error _ => none
  | .ok none => none
  | .ok (some am) =>
    let arxiv_authors := am.authors.map spaceJoinedName
    let source_authors := metadata.authors.map spaceJoinedName
    if arxiv_authors.map normalize_author_name ≠ source_authors.map normalize_author_name then
      some ("authors mismatch - arXiv: [" ++ joinSep ", " arxiv_authors ++ "] vs "
            ++ metadata.source ++ ": [" ++ joinSep ", " source_authors ++ "]")
    else none

/-- verifier.BibVerifier._build_verification_result. -/
def build_verification_result (fix_mismatches : Bool) (entry : BibEntry)
    (paper_id source : String) (auto_found : Bool) (metadata : PaperMetadata)
    (mismatches warnings : List FieldMismatch) : VerificationResult :=
  if mismatches ≠ [] then
    if fix_mismatches then
      { entry_key := entry.ID, success := true, message := "Fixed and verified",
        metadata := some metadata, paper_id_used := some paper_id,
        auto_found_paper_id := auto_found, paper_id_source := some source,
        mismatches := mismatches, warnings := warnings, fixed := true, needs_update := true }
    else
      { entry_key := entry.ID, success := false,
        message := "Field mismatch: " ++ joinSep ", " (mismatches.map (·.field_name)),
        metadata := some metadata, paper_id_used := some paper_id,
        auto_found_paper_id := auto_found, paper_id_source := some source,
        mismatches := mismatches, warnings := warnings }
  else
    let message :=
      if warnings ≠ [] then
        "Verified (warning: " ++ joinSep ", " (warnings.map (·.field_name)) ++ " format differs)"
      else "Verified"
    { entry_key := entry.ID, success := true, message := message, metadata := some metadata,
      paper_id_used := some paper_id, auto_found_paper_id := auto_found,
      paper_id_source := some source, warnings := warnings, needs_update := true }

/-- The conflict-override FAIL result returned when the arXiv cross-check
flags a disagreement. -/
def conflictFailResult (entry : BibEntry) (paper_id source : String) (auto_found : Bool)
    (metadata : PaperMetadata) (msg : String) : VerificationResult :=
  { entry_key := entry.ID, success := false,
    message := "arXiv cross-check failed: " ++ msg, metadata := some metadata,
    paper_id_used := some paper_id, auto_found_paper_id := auto_found,
    paper_id_source := some source }

/-- verifier.BibVerifier._verify_entry_with_resolved.  The fetch is the
instrumented fetcher over the same oracles; a raised fetch error is caught
and turned into the API-error result; the arXiv cross-check fires only
when enabled, an arXiv id was resolved, and the selected source is not
arXiv. -/
def verify_entry_with_resolved (arxiv_check fix_mismatches : Bool)
    (sim : String → String → Rat) (p : ProviderOracles) (entry : BibEntry)
    (paper_id source : String) (auto_found : Bool) (resolved : Option ResolvedIds) :
    VerificationResult :=
  match resolved with
  | none =>
    { entry_key := entry.ID, success := false,
      message := "Paper not found for " ++ paper_id, paper_id_used := some paper_id,
      auto_found_paper_id := auto_found, paper_id_source := some source }
  | some r =>
    match (fetchWithResolved p r).1 with
    | .error e =>
      { entry_key := entry.ID, success := false, message := "API error: " ++ e,
        paper_id_used := some paper_id, auto_found_paper_id := auto_found,
        paper_id_source := some source }
    | .ok none =>
      { entry_key := entry.ID, success := false,
        message := "Paper not found for " ++ paper_id, paper_id_used := some paper_id,
        auto_found_paper_id := auto_found, paper_id_source := some source }
    | .ok (some metadata) =>
      if arxiv_check && truthyOS r.arxiv_id && metadata.source ≠ "arxiv" then
        match check_arxiv_cross_match (p.arxiv (r.arxiv_id.getD "")) metadata with
        | some msg => conflictFailResult entry paper_id source auto_found metadata msg
        | none =>
          build_verification_result fix_mismatches entry paper_id source auto_found metadata
            (check_field_mismatches sim entry metadata).1
            (check_field_mismatches sim entry metadata).2
      else
        build_verification_result fix_mismatches entry paper_id source auto_found metadata
          (check_field_mismatches sim entry metadata).1
          (check_field_mismatches sim entry metadata).2

-- ==========================================================================
-- fetcher.py : HTTP retry layer of the provider clients
-- ==========================================================================

/-- One HTTP attempt as the clients observe it: a 404, a 429, a successful
JSON body, or any other failure (a non-2xx status raised by
raise_for_status, or a network error). -/
inductive HttpAttempt (W : Type) where
  | notFound
  | tooMany
  | okR (w : W)
  | failR
deriving DecidableEq, Repr

/-- The two ways CrossRefClient._fetch_work raises CrossRefError:
wrapping the HTTP error on the last attempt, or after the loop when every
attempt was rate-limited. -/
inductive CrossRefFailure where
  | httpError
  | exhausted
deriving DecidableEq, Repr

/-- The retry loop of fetcher.CrossRefClient._fetch_work: fuel counts the
attempts still allowed (max_retries minus those already made), attempt is
the current 0-based index; the list accumulates the sleep durations, 5 s
scaled by attempt index on a 429 and 2 s scaled on any other failure.
Returns the outcome, the number of attempts made, and the sleeps. -/
def crFetchAux {W : Type} (s : Nat → HttpAttempt W) :
    Nat → Nat → List Nat → Except CrossRefFailure (Option W) × Nat × List Nat
  | 0, attempt, sleeps => (.error .exhausted, attempt, sleeps)
  | fuel + 1, attempt, sleeps =>
    match s attempt with
    | .notFound => (.ok none, attempt + 1, sleeps)
    | .okR w => (.ok (some w), attempt + 1, sleeps)
    | .tooMany => crFetchAux s fuel (attempt + 1) (sleeps ++ [(attempt + 1) * 5])
    | .failR =>
      match fuel with
      | 0 => (.error .httpError, attempt + 1, sleeps)
      | fuel2 + 1 => crFetchAux s (fuel2 + 1) (attempt + 1) (sleeps ++ [(attempt + 1) * 2])

/-- fetcher.CrossRefClient._fetch_work with max_retries = 3, over a stream
of attempt outcomes. -/
def cr_fetch_work {W : Type} (s : Nat → HttpAttempt W) :
    Except CrossRefFailure (Option W) × Nat × List Nat :=
  crFetchAux s 3 0 []

/-- One DBLP search hit's info dict: key, title, year, venue, the author
text entries (the dict-or-list JSON shape already flattened to a list),
and doi. -/
structure DblpHitInfo where
  key : String := ""
  title : Option String := none
  year : String := ""
  venue : String := ""
  authors : List String := []
  doi : Option String := none
deriving DecidableEq, Repr

/-- The JSON body of a DBLP search response, reduced to its hit list. -/
structure DblpBody where
  hits : List DblpHitInfo
deriving DecidableEq, Repr

/-- Strip a trailing whitespace-run-plus-four-digits suffix from an author
name (the re.sub over the year-suffix pattern in _parse_author). -/
def stripTrailingYear (l : List Char) : List Char :=
  match l.reverse with
  | d1 :: d2 :: d3 :: d4 :: c :: rest =>
    if d1.isDigit && d2.isDigit && d3.isDigit && d4.isDigit && isPyWs c then
      ((c :: rest).dropWhile isPyWs).reverse
    else l
  | _ => l

/-- fetcher.DBLPClient._parse_author: strip the numeric suffix and split
the name at its last whitespace run (str.rsplit with maxsplit 1). -/
def dblp_parse_author (name : String) : Option Author :=
  if truthyS name = false then none
  else
    let l := stripTrailingYear name.toList
    let rev := l.reverse.dropWhile isPyWs
    match rev with
    | [] => none
    | _ =>
      let famRev := rev.takeWhile (fun c => !isPyWs c)
      let restRev := (rev.dropWhile (fun c => !isPyWs c)).dropWhile isPyWs
      if restRev = [] then some { given := "", family := String.mk famRev.reverse }
      else some { given := String.mk restRev.reverse, family := String.mk famRev.reverse }

/-- fetcher.DBLPClient._parse_info. -/
def dblp_parse_info (info : DblpHitInfo) (dblp_key : String) : Option DBLPMetadata :=
  let title := info.title.getD ""
  if truthyS title = false then none
  else
    match pyInt? info.year with
    | none => none
    | some year =>
      some { title := rstripDots title, authors := info.authors.filterMap dblp_parse_author,
             year := year, venue := info.venue, dblp_key := dblp_key, doi := info.doi }

/-- The normalization inside fetcher.DBLPClient._titles_match: lowercase,
replace every character that is neither a word character nor whitespace by
a space, collapse whitespace. -/
def dblp_normalize_title (t : String) : String :=
  normalizeWsStr (String.mk ((pyLowerStr t).toList.map
    (fun c => if c.isAlphanum || c == '_' || isPyWs c then c else ' ')))

def dblp_titles_match (t1 t2 : String) : Bool :=
  dblp_normalize_title t1 == dblp_normalize_title t2

/-- The hit-selection loop of fetcher.DBLPClient.search_by_title: skip
arXiv (journals/corr) keys, return the parse of the first hit whose title
matches. -/
def dblp_select_hit (title : String) : List DblpHitInfo → Option DBLPMetadata
  | [] => none
  | info :: rest =>
    if startsWithStr info.key "journals/corr" then dblp_select_hit title rest
    else if dblp_titles_match title (rstripDots (info.title.getD "")) then
      dblp_parse_info info info.key
    else dblp_select_hit title rest

/-- fetcher.DBLPClient.search_by_title over a stream of attempt outcomes:
a single HTTP request is made; any HTTP failure (including 404 and 429,
which raise via raise_for_status) raises DBLPError at once.  Returns the
outcome and the number of attempts made.  The query string (title plus the
canonicalised venue, with NeurIPS rewritten to NIPS) only parameterizes
the request that the stream abstracts. -/
def dblp_search_by_title (s : Nat → HttpAttempt DblpBody) (title : String)
    (venue : Option String) : Except String (Option DBLPMetadata) × Nat :=
  if truthyS title = false then (.ok none, 0)
  else
    let _query :=
      if truthyOS venue then
        let canonical := get_canonical_venue (venue.getD "")
        let search_venue := canonical.getD (venue.getD "")
        let search_venue := if pyLowerStr search_venue = "neurips" then "NIPS" else search_venue
        title ++ " " ++ search_venue
      else title
    match s 0 with
    | .okR body =>
      if body.hits = [] then (.ok none, 1) else (.ok (dblp_select_hit title body.hits), 1)
    | _ => (.error ("DBLPError: Failed to search DBLP for title: " ++ title), 1)

-- ==========================================================================
-- Spec-side definition used by claim C8
-- ==========================================================================

/-- The spec wording of preprint-venue classification: absent or empty, or
containing a known preprint-repository token (arxiv, corr) as a substring,
case-insensitively. -/
def preprintVenueSpec (venue : Option String) : Bool :=
  match venue with
  | none => true
  | some s =>
    s == "" || hasSubstr (pyLowerStr s) "arxiv" || hasSubstr (pyLowerStr s) "corr"

-- ==========================================================================
-- Concrete fixtures for counterexamples and witnesses
-- ==========================================================================

/-- A similarity oracle for concrete runs (its value never matters). -/
def sim0 : String → String → Rat := fun _ _ => 0

/-- Oracles on which every provider finds nothing. -/
def oracleNone : ProviderOracles :=
  { crossref := fun _ => .ok none, dblpSearch := fun _ _ => .ok none,
    arxiv := fun _ => .ok none }

/-- ResolvedIds with no DOI, a non-preprint venue and no resolved title. -/
def rNoTitle : ResolvedIds :=
  { paper_id := "p1", doi := none, arxiv_id := none, dblp_id := none,
    venue := some "ICML", title := none }

/-- ResolvedIds with a genuine DOI. -/
def rWithDoi : ResolvedIds :=
  { paper_id := "p5", doi := some "10.1/x", arxiv_id := none, dblp_id := none,
    venue := some "ICML", title := some "T" }

/-- A fixed-with-warnings verification result, built by the fix_mismatches
path of _build_verification_result for an entry with one hard year
mismatch and one soft title warning. -/
def rFixedWarn : VerificationResult :=
  build_verification_result true { ID := "e1" } "PID" "comment" false
    { title := "A b", authors := [{ given := "John", family := "Doe" }], year := some 2024,
      venue := none, source := "crossref" }
    [{ field_name := "year", bibtex_value := "2023", fetched_value := "2024",
       source := "crossref" }]
    [{ field_name := "title", bibtex_value := "a b", fetched_value := "A b",
       source := "crossref", is_warning := true }]

/-- A result with no_paper_id set (bucketed as a warning by add_result). -/
def rNoId : VerificationResult :=
  { entry_key := "e2", success := true, message := "No paper_id found", no_paper_id := true }

/-- CrossRef record for the C10 run. -/
def crC10 : CrossRefMetadata :=
  { title := "T", authors := [{ given := "John", family := "Doe" }], venue := none,
    year := some 2024, doi := "10.1/x" }

def oracleC10 : ProviderOracles :=
  { crossref := fun _ => .ok (some crC10), dblpSearch := fun _ _ => .ok none,
    arxiv := fun _ => .ok none }

def rC10 : ResolvedIds :=
  { paper_id := "pid10", doi := some "10.1/x", arxiv_id := none, dblp_id := none,
    venue := some "ICML", title := some "T" }

/-- An entry whose year field is present but not parseable as an integer. -/
def eC10 : BibEntry := { ID := "doe2023", title := "T", author := "Doe, John", year := "2023a" }

/-- CrossRef record for the C9 runs. -/
def crC9 : CrossRefMetadata :=
  { title := "T9", authors := [{ given := "Ann", family := "Lee" }], venue := some "ICML",
    year := some 2024, doi := "10.9/z" }

/-- Oracles whose arXiv side raises. -/
def oracleC9err : ProviderOracles :=
  { crossref := fun _ => .ok (some crC9), dblpSearch := fun _ _ => .ok none,
    arxiv := fun _ => .error "arxiv down" }

def rC9 : ResolvedIds :=
  { paper_id := "pid9", doi := some "10.9/z", arxiv_id := some "2101.00001",
    dblp_id := none, venue := some "ICML", title := some "T9" }

def eC9 : BibEntry :=
  { ID := "lee2024", title := "T9", author := "Lee, Ann", year := "2024", booktitle := "ICML" }

/-- The PaperMetadata selected by the fetch in the C9 runs. -/
def mC9 : PaperMetadata := crossrefToPaper crC9 rC9

/-- A response stream whose first attempt fails and whose later attempts
would succeed. -/
def streamFailThenOk : Nat → HttpAttempt Nat :=
  fun n => if n = 0 then .failR else .okR 7

/-- The same shape of stream for the DBLP search body. -/
def streamFailThenOkD : Nat → HttpAttempt DblpBody :=
  fun n => if n = 0 then .failR else .okR { hits := [] }

/-- Erase the similarity score of a recorded mismatch (used to state that
the score never influences the verdicts). -/
def dropSimilarity (fm : FieldMismatch) : FieldMismatch :=
  { fm with similarity := none }

-- ==========================================================================
-- Helper lemmas
-- ==========================================================================

theorem pyLowerStr_eq_empty {s : String} (h : pyLowerStr s = "") : s = "" := by
  apply String.ext
  have h3 : s.toList.map pyLowerChar = ([] : List Char) := congrArg String.data h
  exact List.map_eq_nil_iff.mp h3

theorem title_check_snd_sim (sim sim' : String → String → Rat) (e : BibEntry)
    (m : PaperMetadata) : (title_check sim e m).2 = (title_check sim' e m).2 := by
  unfold title_check
  split
  · split <;> rfl
  · rfl

theorem title_check_fst_sim (sim sim' : String → String → Rat) (e : BibEntry)
    (m : PaperMetadata) :
    (title_check sim e m).1.map dropSimilarity = (title_check sim' e m).1.map dropSimilarity := by
  unfold title_check
  split
  · split <;> simp [dropSimilarity]
  · rfl

theorem year_check_skip (e : BibEntry) (m : PaperMetadata) (hy : pyInt? e.year = none) :
    year_check e m = ([], []) := by
  unfold year_check
  split
  · split
    · rw [hy]
    · rfl
  · rfl

theorem title_check_no_year (sim : String → String → Rat) (e : BibEntry) (m : PaperMetadata) :
    (∀ x ∈ (title_check sim e m).1, x.field_name ≠ "year")
    ∧ (∀ x ∈ (title_check sim e m).2, x.field_name ≠ "year") := by
  unfold title_check
  split
  · split <;> simp
  · simp

theorem author_check_no_year (e : BibEntry) (m : PaperMetadata) :
    (∀ x ∈ (author_check e m).1, x.field_name ≠ "year")
    ∧ (∀ x ∈ (author_check e m).2, x.field_name ≠ "year") := by
  unfold author_check
  split
  · split <;> simp
  · simp

theorem venue_check_no_year (e : BibEntry) (m : PaperMetadata) :
    (∀ x ∈ (venue_check e m).1, x.field_name ≠ "year")
    ∧ (∀ x ∈ (venue_check e m).2, x.field_name ≠ "year") := by
  unfold venue_check
  split
  · split <;> simp
  · simp

theorem add_result_counts (R : VerificationReport) (r : VerificationResult) :
    (add_result R r).failed = R.failed + (if bucketOf r = .failedB then 1 else 0)
  ∧ (add_result R r).verified_with_warnings
      = R.verified_with_warnings + (if bucketOf r = .verifiedWarnB then 1 else 0)
  ∧ (add_result R r).no_paper_id = R.no_paper_id + (if bucketOf r = .noPaperIdB then 1 else 0) := by
  cases hav : r.already_verified <;> cases hnp : r.no_paper_id <;> cases hfx : r.fixed <;>
    cases hsc : r.success <;> by_cases hw : r.warnings = [] <;>
      simp [add_result, bucketOf, hav, hnp, hfx, hsc, hw]

theorem foldl_add_counts (rs : List VerificationResult) : ∀ R : VerificationReport,
    (rs.foldl add_result R).failed
      = R.failed + rs.countP (fun r => decide (bucketOf r = .failedB))
  ∧ (rs.foldl add_result R).verified_with_warnings
      = R.verified_with_warnings + rs.countP (fun r => decide (bucketOf r = .verifiedWarnB))
  ∧ (rs.foldl add_result R).no_paper_id
      = R.no_paper_id + rs.countP (fun r => decide (bucketOf r = .noPaperIdB)) := by
  induction rs with
  | nil => intro R; simp
  | cons r rs ih =>
    intro R
    have h := add_result_counts R r
    have h2 := ih (add_result R r)
    simp only [List.foldl_cons, List.countP_cons]
    refine ⟨?_, ?_, ?_⟩
    · rw [h2.1, h.1]
      by_cases hb : bucketOf r = .failedB <;> simp [hb] <;> try omega
    · rw [h2.2.1, h.2.1]
      by_cases hb : bucketOf r = .verifiedWarnB <;> simp [hb] <;> try omega
    · rw [h2.2.2, h.2.2]
      by_cases hb : bucketOf r = .noPaperIdB <;> simp [hb] <;> try omega

theorem reportOf_bucket_facts (rs : List VerificationResult) :
    (0 < (reportOf rs).failed ↔ ∃ r ∈ rs, bucketOf r = .failedB)
  ∧ (0 < (reportOf rs).verified_with_warnings ↔ ∃ r ∈ rs, bucketOf r = .verifiedWarnB)
  ∧ (0 < (reportOf rs).no_paper_id ↔ ∃ r ∈ rs, bucketOf r = .noPaperIdB) := by
  have h := foldl_add_counts rs emptyReport
  refine ⟨?_, ?_, ?_⟩
  · rw [reportOf, h.1]
    simp [emptyReport, List.countP_pos_iff]
  · rw [reportOf, h.2.1]
    simp [emptyReport, List.countP_pos_iff]
  · rw [reportOf, h.2.2]
    simp [emptyReport, List.countP_pos_iff]

-- ==========================================================================
-- Claim theorems
-- ==========================================================================

/-- C3: title comparison is exactly three-tiered: identical raw titles pass
without warning; titles that differ raw but agree after stripping braces
and dollars, normalizing whitespace and case-folding match with a warning;
all other pairs mismatch; and the attached similarity score never changes
which of the three verdicts the field check produces. -/
theorem c3_compare_titles :
    (∀ t, compare_titles t t = (true, false))
  ∧ (∀ a b, a ≠ b →
       pyLowerStr (strip_latex_braces a) = pyLowerStr (strip_latex_braces b) →
       compare_titles a b = (true, true))
  ∧ (∀ a b, pyLowerStr (strip_latex_braces a) ≠ pyLowerStr (strip_latex_braces b) →
       compare_titles a b = (false, false))
  ∧ (∀ (sim sim' : String → String → Rat) (e : BibEntry) (m : PaperMetadata),
       (check_field_mismatches sim e m).1.map dropSimilarity
         = (check_field_mismatches sim' e m).1.map dropSimilarity
       ∧ (check_field_mismatches sim e m).2 = (check_field_mismatches sim' e m).2) := by
  refine ⟨fun t => by simp [compare_titles], ?_, ?_, ?_⟩
  · intro a b hne heq
    simp [compare_titles, hne, heq]
  · intro a b hne
    have hraw : a ≠ b := fun h => hne (by rw [h])
    simp [compare_titles, hraw, hne]
  · intro sim sim' e m
    constructor
    · simp only [check_field_mismatches, List.map_append, title_check_fst_sim sim sim' e m]
    · simp only [check_field_mismatches, title_check_snd_sim sim sim' e m]

/-- Witness for C3 at concrete titles. -/
theorem c3_compare_titles_witness :
    compare_titles "Same Title" "Same Title" = (true, false)
  ∧ compare_titles "$A$ b" "a b" = (true, true)
  ∧ compare_titles "Alpha" "Beta" = (false, false) :=
  ⟨c3_compare_titles.1 "Same Title",
   c3_compare_titles.2.1 "$A$ b" "a b" (by decide) (by decide),
   c3_compare_titles.2.2.1 "Alpha" "Beta" (by decide)⟩

/-- C4 counterexample: the claim requires every author-count mismatch to
yield (match=false, warning=false), but raw equality of the bibtex author
field with the joined provider string is checked first, so a one-author
provider list whose name contains " and " passes without warning although
the parsed counts differ (2 vs 1). -/
theorem c4_counterexample :
    compare_authors "Simon and Garfunkel" ["Simon and Garfunkel"] = (true, false)
  ∧ (parse_bibtex_authors "Simon and Garfunkel").length = 2
  ∧ (["Simon and Garfunkel"] : List String).length = 1 := by
  refine ⟨by decide, by decide, rfl⟩

/-- C4 amended: raw equality of the bibtex author field with the joined
provider author string passes without warning (even when parsed counts
differ); otherwise equal parsed counts with every positional pair identical
after case-preserving normalization give (match=true, warning=true); and
otherwise a count mismatch, or any normalized pair difference (which is
what a case change, an abbreviation or an effective reordering produces),
gives (match=false, warning=false). -/
theorem c4_compare_authors (bib : String) (ss : List String) :
    (bib = joinAnd ss → compare_authors bib ss = (true, false))
  ∧ (bib ≠ joinAnd ss → (parse_bibtex_authors bib).length = ss.length →
      ((parse_bibtex_authors bib).zip ss).all
        (fun p => normalize_author_name p.1 == normalize_author_name p.2) = true →
      compare_authors bib ss = (true, true))
  ∧ (bib ≠ joinAnd ss → (parse_bibtex_authors bib).length ≠ ss.length →
      compare_authors bib ss = (false, false))
  ∧ (bib ≠ joinAnd ss →
      ((parse_bibtex_authors bib).zip ss).all
        (fun p => normalize_author_name p.1 == normalize_author_name p.2) = false →
      compare_authors bib ss = (false, false)) := by
  refine ⟨?_, ?_, ?_, ?_⟩
  · intro h; simp [compare_authors, h]
  · intro h1 h2 h3; simp [compare_authors, h1, h2, h3]
  · intro h1 h2; simp [compare_authors, h1, h2]
  · intro h1 h2
    by_cases hl : (parse_bibtex_authors bib).length = ss.length
    · simp [compare_authors, h1, hl, h2]
    · simp [compare_authors, h1, hl]

/-- Witness for C4 at concrete author fields: exact match, name-order
style warning, count mismatch and case difference. -/
theorem c4_compare_authors_witness :
    compare_authors "Doe, John" ["Doe, John"] = (true, false)
  ∧ compare_authors "Smith, John" ["John Smith"] = (true, true)
  ∧ compare_authors "A B" ["A B", "C D"] = (false, false)
  ∧ compare_authors "john smith" ["John Smith"] = (false, false) :=
  ⟨(c4_compare_authors "Doe, John" ["Doe, John"]).1 (by decide),
   (c4_compare_authors "Smith, John" ["John Smith"]).2.1 (by decide) (by decide) (by decide),
   (c4_compare_authors "A B" ["A B", "C D"]).2.2.1 (by decide) (by decide),
   (c4_compare_authors "john smith" ["John Smith"]).2.2.2 (by decide) (by decide)⟩

/-- C7 counterexample: the claim requires an unparseable date to yield
false for every maxAge, but with maxAge = None the always-skip branch runs
first and the code returns true even for an unparseable date. -/
theorem c7_counterexample :
    should_skip_verified none (fun _ => none) (some "not-a-date") = true := rfl

/-- C7 amended: with maxAge = None every entry is skipped regardless of
the date; with maxAge = 0 none is; otherwise (maxAge nonzero) a missing or
unparseable date means no skip, and a valid date skips iff its age in days
is at most maxAge. -/
theorem c7_skip_logic (age : String → Option Int) (d : Option String) :
    should_skip_verified none age d = true
  ∧ should_skip_verified (some 0) age d = false
  ∧ (∀ m : Int, m ≠ 0 → truthyOS d = false → should_skip_verified (some m) age d = false)
  ∧ (∀ m : Int, m ≠ 0 → truthyOS d = true → age (d.getD "") = none →
      should_skip_verified (some m) age d = false)
  ∧ (∀ m a : Int, m ≠ 0 → truthyOS d = true → age (d.getD "") = some a →
      should_skip_verified (some m) age d = decide (a ≤ m)) := by
  refine ⟨rfl, by simp [should_skip_verified], ?_, ?_, ?_⟩
  · intro m hm hd; simp [should_skip_verified, hm, hd]
  · intro m hm hd ha; simp [should_skip_verified, hm, hd, ha]
  · intro m a hm hd ha; simp [should_skip_verified, hm, hd, ha]

/-- Witness for C7 at concrete ages and dates. -/
theorem c7_skip_logic_witness :
    should_skip_verified none (fun _ => none) (some "2020.01.01") = true
  ∧ should_skip_verified (some 0) (fun _ => some 3) (some "2020.01.01") = false
  ∧ should_skip_verified (some 30) (fun _ => some 10) none = false
  ∧ should_skip_verified (some 30) (fun _ => none) (some "bad") = false
  ∧ should_skip_verified (some 30) (fun _ => some 10) (some "2024.01.01")
      = decide ((10 : Int) ≤ 30) :=
  ⟨(c7_skip_logic (fun _ => none) (some "2020.01.01")).1,
   (c7_skip_logic (fun _ => some 3) (some "2020.01.01")).2.1,
   (c7_skip_logic (fun _ => some 10) none).2.2.1 30 (by decide) rfl,
   (c7_skip_logic (fun _ => none) (some "bad")).2.2.2.1 30 (by decide) rfl rfl,
   (c7_skip_logic (fun _ => some 10) (some "2024.01.01")).2.2.2.2 30 10 (by decide) rfl rfl⟩

/-- C8 counterexample: the claim classifies any venue containing the token
corr as a preprint venue, but the code only tests the string corr by exact
(case-insensitive) equality, so a venue containing corr as a proper
substring is not classified as preprint. -/
theorem c8_counterexample :
    is_arxiv_venue (some "CoRR Workshop") = false
  ∧ preprintVenueSpec (some "CoRR Workshop") = true := by
  exact ⟨by decide, by decide⟩

/-- C8 amended: a venue is classified preprint iff it is absent or empty,
contains arxiv as a case-insensitive substring, or equals corr
case-insensitively. -/
theorem c8_preprint_venue (venue : Option String) :
    is_arxiv_venue venue = true ↔
      venue = none ∨ venue = some "" ∨
      (∃ s, venue = some s ∧
        (hasSubstr (pyLowerStr s) "arxiv" = true ∨ pyLowerStr s = "corr")) := by
  cases venue with
  | none => simp [is_arxiv_venue, truthyOS]
  | some s =>
    by_cases hs : s = ""
    · subst hs; simp [is_arxiv_venue, truthyOS, truthyS]
    · have hlv : ¬ pyLowerStr s = "" := fun h => hs (pyLowerStr_eq_empty h)
      have hne : truthyS s = true := by simp [truthyS, hs]
      by_cases hA : hasSubstr (pyLowerStr s) "arxiv" = true <;>
        by_cases hC : pyLowerStr s = "corr" <;>
          simp [is_arxiv_venue, truthyOS, hne, hs, hA, hC, hlv]

/-- C1 counterexample: the claim requires exactly one provider query for
every ResolvedIds, but with no DOI, a non-preprint venue and no resolved
title the DBLP branch is entered and no provider at all is queried. -/
theorem c1_counterexample :
    (fetchWithResolved oracleNone rNoTitle).2 = []
  ∧ (fetchWithResolved oracleNone rNoTitle).2.length = 0
  ∧ truthyOS rNoTitle.doi = false
  ∧ is_arxiv_venue rNoTitle.venue = false := by
  refine ⟨rfl, rfl, rfl, by decide⟩

/-- C1 amended: source selection queries at most one provider: exactly
CrossRef when a DOI is present; else, for a non-preprint venue, exactly
DBLP when a resolved title exists and none otherwise; else exactly arXiv
when a resolved arXiv id exists and none otherwise; and any returned
PaperMetadata is built from the single queried provider's record (with the
arXiv id carried over from the resolution step), never merged. -/
theorem c1_source_selection (p : ProviderOracles) (r : ResolvedIds) :
    (fetchWithResolved p r).2.length ≤ 1
  ∧ (truthyOS r.doi = true → (fetchWithResolved p r).2 = [Provider.crossref])
  ∧ (truthyOS r.doi = false → is_arxiv_venue r.venue = false →
       (fetchWithResolved p r).2 = if truthyOS r.title then [Provider.dblp] else [])
  ∧ (truthyOS r.doi = false → is_arxiv_venue r.venue = true →
       (fetchWithResolved p r).2 = if truthyOS r.arxiv_id then [Provider.arxiv] else [])
  ∧ (∀ m, (fetchWithResolved p r).1 = Except.ok (some m) →
       ((fetchWithResolved p r).2 = [Provider.crossref] ∧ m.source = "crossref"
          ∧ ∃ c, p.crossref (r.doi.getD "") = Except.ok (some c) ∧ m = crossrefToPaper c r)
     ∨ ((fetchWithResolved p r).2 = [Provider.dblp] ∧ m.source = "dblp"
          ∧ ∃ d, p.dblpSearch (r.title.getD "") r.venue = Except.ok (some d)
              ∧ m = dblpToPaper d r)
     ∨ ((fetchWithResolved p r).2 = [Provider.arxiv] ∧ m.source = "arxiv"
          ∧ ∃ a, p.arxiv (r.arxiv_id.getD "") = Except.ok (some a) ∧ m = arxivToPaper a)) := by
  cases hd : truthyOS r.doi
  · cases ha : is_arxiv_venue r.venue
    · cases ht : truthyOS r.title
      · simp [fetchWithResolved, hd, ha, ht]
      · rcases hc : p.dblpSearch (r.title.getD "") r.venue with e | mo
        · simp [fetchWithResolved, hd, ha, ht, hc]
        · rcases mo with _ | d
          · simp [fetchWithResolved, hd, ha, ht, hc]
          · refine ⟨?_, ?_, ?_, ?_, ?_⟩
            · simp [fetchWithResolved, hd, ha, ht, hc]
            · intro h; simp at h
            · intro _ _; simp [fetchWithResolved, hd, ha, ht, hc]
            · intro _ h; simp at h
            · intro m hm
              have hm2 : m = dblpToPaper d r := by
                simp [fetchWithResolved, hd, ha, ht, hc] at hm
                exact hm.symm
              subst hm2
              exact Or.inr (Or.inl
                ⟨by simp [fetchWithResolved, hd, ha, ht, hc], rfl, d, rfl, rfl⟩)
    · cases hx : truthyOS r.arxiv_id
      · simp [fetchWithResolved, hd, ha, hx]
      · rcases hc : p.arxiv (r.arxiv_id.getD "") with e | mo
        · simp [fetchWithResolved, hd, ha, hx, hc]
        · rcases mo with _ | a
          · simp [fetchWithResolved, hd, ha, hx, hc]
          · refine ⟨?_, ?_, ?_, ?_, ?_⟩
            · simp [fetchWithResolved, hd, ha, hx, hc]
            · intro h; simp at h
            · intro _ h; simp at h
            · intro _ _; simp [fetchWithResolved, hd, ha, hx, hc]
            · intro m hm
              have hm2 : m = arxivToPaper a := by
                simp [fetchWithResolved, hd, ha, hx, hc] at hm
                exact hm.symm
              subst hm2
              exact Or.inr (Or.inr
                ⟨by simp [fetchWithResolved, hd, ha, hx, hc], rfl, a, rfl, rfl⟩)
  · rcases hc : p.crossref (r.doi.getD "") with e | mo
    · simp [fetchWithResolved, hd, hc]
    · rcases mo with _ | c
      · simp [fetchWithResolved, hd, hc]
      · refine ⟨?_, ?_, ?_, ?_, ?_⟩
        · simp [fetchWithResolved, hd, hc]
        · intro _; simp [fetchWithResolved, hd, hc]
        · intro h; simp at h
        · intro h; simp at h
        · intro m hm
          have hm2 : m = crossrefToPaper c r := by
            simp [fetchWithResolved, hd, hc] at hm
            exact hm.symm
          subst hm2
          exact Or.inl ⟨by simp [fetchWithResolved, hd, hc], rfl, c, rfl, rfl⟩

/-- Witness for C1 at a DOI-bearing input and at the empty-query input. -/
theorem c1_source_selection_witness :
    (fetchWithResolved oracleNone rWithDoi).2 = [Provider.crossref]
  ∧ (fetchWithResolved oracleNone rNoTitle).2
      = (if truthyOS rNoTitle.title then [Provider.dblp] else []) :=
  ⟨(c1_source_selection oracleNone rWithDoi).2.1 rfl,
   (c1_source_selection oracleNone rNoTitle).2.2.1 rfl (by decide)⟩

/-- C5 counterexample: the claim requires a raised error when a genuine
DOI is present but CrossRef returns no record, yet the verification
fetcher returns silent absence (and there is no best-effort flag in its
signature): the run below has a truthy DOI, the CrossRef oracle answers
404-absence, and the fetch evaluates to ok-none rather than an error. -/
theorem c5_counterexample :
    fetchWithResolved oracleNone rWithDoi = (Except.ok none, [Provider.crossref])
  ∧ truthyOS rWithDoi.doi = true := ⟨rfl, rfl⟩

/-- C5 amended: in MetadataFetcher._fetch_with_resolved a present DOI
routes to CrossRef only; a no-record answer yields silent absence with no
other provider consulted, a some-record answer yields that record, and
only a raised CrossRef error (an HTTP failure after retries) propagates as
an error. -/
theorem c5_doi_absence (p : ProviderOracles) (r : ResolvedIds)
    (h : truthyOS r.doi = true) :
    (p.crossref (r.doi.getD "") = Except.ok none →
       fetchWithResolved p r = (Except.ok none, [Provider.crossref]))
  ∧ (∀ e, p.crossref (r.doi.getD "") = Except.error e →
       fetchWithResolved p r = (Except.error e, [Provider.crossref]))
  ∧ (∀ c, p.crossref (r.doi.getD "") = Except.ok (some c) →
       fetchWithResolved p r = (Except.ok (some (crossrefToPaper c r)), [Provider.crossref])) := by
  refine ⟨?_, ?_, ?_⟩
  · intro hc; simp [fetchWithResolved, h, hc]
  · intro e hc; simp [fetchWithResolved, h, hc]
  · intro c hc; simp [fetchWithResolved, h, hc]

/-- Witness for C5 at the concrete absence run. -/
theorem c5_doi_absence_witness :
    fetchWithResolved oracleNone rWithDoi = (Except.ok none, [Provider.crossref]) :=
  (c5_doi_absence oracleNone rWithDoi rfl).1 rfl

/-- C2 counterexample: the claim requires overall WARNING whenever some
result's status is WARNING (and no FAIL), but add_result classifies by
bucket, not by status: a fixed result with warnings (as the fix-mismatches
path produces) has status WARNING yet lands in the fixed bucket, so the
report over exactly that result is overall PASS. -/
theorem c2_counterexample :
    VerificationResult.status rFixedWarn = .WARNING
  ∧ overall_status (add_result emptyReport rFixedWarn) = .PASS
  ∧ (add_result emptyReport rFixedWarn).results = [rFixedWarn]
  ∧ exit_code (add_result emptyReport rFixedWarn) = 0 := by
  refine ⟨by decide, by decide, by decide, by decide⟩

/-- C2 amended: the overall status aggregates the add_result buckets, not
the per-result status property: FAIL iff some added result is bucketed
failed (not already-verified, not no-paper-id, not fixed, not success);
else WARNING iff some result is bucketed verified-with-warnings or
no-paper-id; else PASS; and the exit code is the numeric value of the
overall status (PASS=0, WARNING=1, FAIL=2). -/
theorem c2_report_aggregation (rs : List VerificationResult) :
    (overall_status (reportOf rs) = .FAIL ↔ ∃ r ∈ rs, bucketOf r = .failedB)
  ∧ (overall_status (reportOf rs) = .WARNING ↔
      (¬ ∃ r ∈ rs, bucketOf r = .failedB)
      ∧ ((∃ r ∈ rs, bucketOf r = .verifiedWarnB) ∨ (∃ r ∈ rs, bucketOf r = .noPaperIdB)))
  ∧ (overall_status (reportOf rs) = .PASS ↔
      (¬ ∃ r ∈ rs, bucketOf r = .failedB)
      ∧ ¬ ((∃ r ∈ rs, bucketOf r = .verifiedWarnB) ∨ (∃ r ∈ rs, bucketOf r = .noPaperIdB)))
  ∧ exit_code (reportOf rs) = statusValue (overall_status (reportOf rs))
  ∧ (overall_status (reportOf rs) = .PASS ↔ exit_code (reportOf rs) = 0)
  ∧ (overall_status (reportOf rs) = .WARNING ↔ exit_code (reportOf rs) = 1)
  ∧ (overall_status (reportOf rs) = .FAIL ↔ exit_code (reportOf rs) = 2) := by
  have hb := reportOf_bucket_facts rs
  have hnum : ∀ rep : VerificationReport,
      (overall_status rep = .PASS ↔ exit_code rep = 0)
      ∧ (overall_status rep = .WARNING ↔ exit_code rep = 1)
      ∧ (overall_status rep = .FAIL ↔ exit_code rep = 2) := by
    intro rep
    cases h : overall_status rep <;> simp [exit_code, h, statusValue]
  have hmain :
      (overall_status (reportOf rs) = .FAIL ↔ ∃ r ∈ rs, bucketOf r = .failedB)
      ∧ (overall_status (reportOf rs) = .WARNING ↔
          (¬ ∃ r ∈ rs, bucketOf r = .failedB)
          ∧ ((∃ r ∈ rs, bucketOf r = .verifiedWarnB) ∨ (∃ r ∈ rs, bucketOf r = .noPaperIdB)))
      ∧ (overall_status (reportOf rs) = .PASS ↔
          (¬ ∃ r ∈ rs, bucketOf r = .failedB)
          ∧ ¬ ((∃ r ∈ rs, bucketOf r = .verifiedWarnB)
               ∨ (∃ r ∈ rs, bucketOf r = .noPaperIdB))) := by
    by_cases hf : 0 < (reportOf rs).failed
    · have hf2 : (∃ r ∈ rs, bucketOf r = .failedB) := hb.1.mp hf
      simp [overall_status, hf, hf2]
    · have hf2 : ¬ (∃ r ∈ rs, bucketOf r = .failedB) := fun h => hf (hb.1.mpr h)
      by_cases hw : 0 < (reportOf rs).verified_with_warnings ∨ 0 < (reportOf rs).no_paper_id
      · have hw2 : (∃ r ∈ rs, bucketOf r = .verifiedWarnB)
            ∨ (∃ r ∈ rs, bucketOf r = .noPaperIdB) := by
          rcases hw with h | h
          · exact Or.inl (hb.2.1.mp h)
          · exact Or.inr (hb.2.2.mp h)
        simp [overall_status, hf, hw, hf2, hw2]
      · have hw2 : ¬ ((∃ r ∈ rs, bucketOf r = .verifiedWarnB)
            ∨ (∃ r ∈ rs, bucketOf r = .noPaperIdB)) := by
          rintro (h | h)
          · exact hw (Or.inl (hb.2.1.mpr h))
          · exact hw (Or.inr (hb.2.2.mpr h))
        simp [overall_status, hf, hw, hf2, hw2]
  exact ⟨hmain.1, hmain.2.1, hmain.2.2, rfl,
    (hnum (reportOf rs)).1, (hnum (reportOf rs)).2.1, (hnum (reportOf rs)).2.2⟩

/-- C6 counterexample: the claim requires every provider client to retry
non-404 failures up to 3 attempts and to raise only after the budget; but
the fetcher's DBLP title search raises DBLPError after a single attempt on
a stream whose first attempt fails, while the CrossRef client on the same
stream shape retries and succeeds on attempt two. -/
theorem c6_counterexample :
    dblp_search_by_title streamFailThenOkD "Title" none
      = (Except.error "DBLPError: Failed to search DBLP for title: Title", 1)
  ∧ cr_fetch_work streamFailThenOk = (Except.ok (some 7), 2, [2]) := ⟨rfl, rfl⟩

/-- C6 amended: the CrossRef client's fetch follows the full retry
contract — at most 3 attempts, 404 is immediate absence, success returns
the body, a 429 at attempt i sleeps 5(i+1) and retries, any other failure
at a non-final attempt sleeps 2(i+1) and retries, and an error
distinguishable from absence is raised only on a final-attempt failure or
after the loop — while the fetcher's DBLP title search makes exactly one
attempt and raises DBLPError on any HTTP failure, including 404. -/
theorem c6_retry_contract :
    (∀ (W : Type) (s : Nat → HttpAttempt W),
      cr_fetch_work s =
        match s 0, s 1, s 2 with
        | .notFound, _, _ => (.ok none, 1, [])
        | .okR w, _, _ => (.ok (some w), 1, [])
        | .tooMany, .notFound, _ => (.ok none, 2, [5])
        | .tooMany, .okR w, _ => (.ok (some w), 2, [5])
        | .failR, .notFound, _ => (.ok none, 2, [2])
        | .failR, .okR w, _ => (.ok (some w), 2, [2])
        | .tooMany, .tooMany, .notFound => (.ok none, 3, [5, 10])
        | .tooMany, .tooMany, .okR w => (.ok (some w), 3, [5, 10])
        | .tooMany, .tooMany, .tooMany => (.error .exhausted, 3, [5, 10, 15])
        | .tooMany, .tooMany, .failR => (.error .httpError, 3, [5, 10])
        | .tooMany, .failR, .notFound => (.ok none, 3, [5, 4])
        | .tooMany, .failR, .okR w => (.ok (some w), 3, [5, 4])
        | .tooMany, .failR, .tooMany => (.error .exhausted, 3, [5, 4, 15])
        | .tooMany, .failR, .failR => (.error .httpError, 3, [5, 4])
        | .failR, .tooMany, .notFound => (.ok none, 3, [2, 10])
        | .failR, .tooMany, .okR w => (.ok (some w), 3, [2, 10])
        | .failR, .tooMany, .tooMany => (.error .exhausted, 3, [2, 10, 15])
        | .failR, .tooMany, .failR => (.error .httpError, 3, [2, 10])
        | .failR, .failR, .notFound => (.ok none, 3, [2, 4])
        | .failR, .failR, .okR w => (.ok (some w), 3, [2, 4])
        | .failR, .failR, .tooMany => (.error .exhausted, 3, [2, 4, 15])
        | .failR, .failR, .failR => (.error .httpError, 3, [2, 4]))
  ∧ (∀ (s : Nat → HttpAttempt DblpBody) (t : String) (v : Option String),
      truthyS t = true →
      (dblp_search_by_title s t v).2 = 1
      ∧ ((∃ e, (dblp_search_by_title s t v).1 = Except.error e) ↔ ∀ b, s 0 ≠ .okR b)) := by
  constructor
  · intro W s
    rcases h0 : s 0 <;> rcases h1 : s 1 <;> rcases h2 : s 2 <;>
      simp [cr_fetch_work, crFetchAux, h0, h1, h2]
  · intro s t v ht
    rcases h0 : s 0 with _ | _ | b | _
    · exact ⟨by simp [dblp_search_by_title, ht, h0], by
        simp [dblp_search_by_title, ht, h0]⟩
    · exact ⟨by simp [dblp_search_by_title, ht, h0], by
        simp [dblp_search_by_title, ht, h0]⟩
    · refine ⟨?_, ?_⟩
      · simp [dblp_search_by_title, ht, h0]
        split <;> rfl
      · constructor
        · rintro ⟨e, he⟩
          by_cases hb : b.hits = [] <;> simp [dblp_search_by_title, ht, h0, hb] at he
        · intro hall
          exact absurd rfl (hall b)
    · exact ⟨by simp [dblp_search_by_title, ht, h0], by
        simp [dblp_search_by_title, ht, h0]⟩

/-- Witness for C6: the amended contract applied at the concrete streams. -/
theorem c6_retry_contract_witness :
    (dblp_search_by_title streamFailThenOkD "Title" none).2 = 1
  ∧ cr_fetch_work streamFailThenOk = (Except.ok (some 7), 2, [2]) :=
  ⟨(c6_retry_contract.2 streamFailThenOkD "Title" none rfl).1,
   by rw [c6_retry_contract.1 Nat streamFailThenOk]; rfl⟩

/-- C9: when conflict-check is enabled, an arXiv id was resolved, and the
selected source is not arXiv, the entry is forced to FAIL exactly when the
independent arXiv fetch succeeds with a record whose normalized author
list differs from the selected source's; an exception in the side-fetch is
swallowed and — as whenever no conflict is flagged — the outcome equals
the run with conflict-check disabled. -/
theorem c9_conflict_check (fm : Bool) (sim : String → String → Rat) (p : ProviderOracles)
    (entry : BibEntry) (paper_id source : String) (auto_found : Bool) (r : ResolvedIds)
    (m : PaperMetadata) (hid : truthyOS r.arxiv_id = true)
    (hfetch : (fetchWithResolved p r).1 = Except.ok (some m)) (hsrc : m.source ≠ "arxiv") :
    (∀ msg, check_arxiv_cross_match (p.arxiv (r.arxiv_id.getD "")) m = some msg →
       verify_entry_with_resolved true fm sim p entry paper_id source auto_found (some r)
         = conflictFailResult entry paper_id source auto_found m msg)
  ∧ (check_arxiv_cross_match (p.arxiv (r.arxiv_id.getD "")) m = none →
       verify_entry_with_resolved true fm sim p entry paper_id source auto_found (some r)
         = verify_entry_with_resolved false fm sim p entry paper_id source auto_found (some r))
  ∧ (∀ e, p.arxiv (r.arxiv_id.getD "") = Except.error e →
       check_arxiv_cross_match (p.arxiv (r.arxiv_id.getD "")) m = none)
  ∧ (p.arxiv (r.arxiv_id.getD "") = Except.ok none →
       check_arxiv_cross_match (p.arxiv (r.arxiv_id.getD "")) m = none)
  ∧ (∀ am, p.arxiv (r.arxiv_id.getD "") = Except.ok (some am) →
       (check_arxiv_cross_match (p.arxiv (r.arxiv_id.getD "")) m ≠ none ↔
         (am.authors.map spaceJoinedName).map normalize_author_name
           ≠ (m.authors.map spaceJoinedName).map normalize_author_name)) := by
  refine ⟨?_, ?_, ?_, ?_, ?_⟩
  · intro msg hmsg
    simp [verify_entry_with_resolved, hfetch, hid, hsrc, hmsg]
  · intro hmsg
    simp [verify_entry_with_resolved, hfetch, hid, hsrc, hmsg]
  · intro e he; simp [check_arxiv_cross_match, he]
  · intro he; simp [check_arxiv_cross_match, he]
  · intro am ham
    rw [ham]
    by_cases hdiff : (am.authors.map spaceJoinedName).map normalize_author_name
        = (m.authors.map spaceJoinedName).map normalize_author_name
    · simp [check_arxiv_cross_match, hdiff]
    · simp [check_arxiv_cross_match, hdiff]

/-- Witness for C9: a concrete run whose arXiv side-fetch raises gives the
same result as the run with conflict-check disabled. -/
theorem c9_conflict_check_witness :
    verify_entry_with_resolved true false sim0 oracleC9err eC9 "P9" "comment" false (some rC9)
      = verify_entry_with_resolved false false sim0 oracleC9err eC9 "P9" "comment" false
          (some rC9) :=
  (c9_conflict_check false sim0 oracleC9err eC9 "P9" "comment" false rC9 mC9 rfl rfl
    (by decide)).2.1 rfl

/-- C10: a present but unparseable bibtex year field silently skips the
year comparison — no year mismatch and no year warning is ever recorded,
whatever the fetched metadata says — and a concrete entry with year
"2023a" against fetched year 2024 still reaches status PASS. -/
theorem c10_year_skip :
    (∀ (sim : String → String → Rat) (entry : BibEntry) (metadata : PaperMetadata),
       pyInt? entry.year = none →
       ((check_field_mismatches sim entry metadata).1.all
          (fun fmm => fmm.field_name ≠ "year") = true)
       ∧ ((check_field_mismatches sim entry metadata).2.all
          (fun fmm => fmm.field_name ≠ "year") = true))
  ∧ (verify_entry_with_resolved true false sim0 oracleC10 eC10 "DOI:10.1/x" "comment" false
       (some rC10)).status = .PASS
  ∧ eC10.year = "2023a" ∧ pyInt? eC10.year = none
  ∧ (fetchWithResolved oracleC10 rC10).1 = Except.ok (some (crossrefToPaper crC10 rC10))
  ∧ (crossrefToPaper crC10 rC10).year = some 2024 := by
  refine ⟨?_, by decide, rfl, by decide, rfl, rfl⟩
  intro sim entry metadata hy
  have ht := title_check_no_year sim entry metadata
  have ha := author_check_no_year entry metadata
  have hv := venue_check_no_year entry metadata
  have hyc := year_check_skip entry metadata hy
  constructor
  · simp [check_field_mismatches, hyc]
    exact ⟨ht.1, ha.1, hv.1⟩
  · simp [check_field_mismatches, hyc]
    exact ⟨ht.2, ha.2, hv.2⟩

/-- Witness for C10: the year-skip fact applied to the concrete entry and
fetched metadata. -/
theorem c10_year_skip_witness :
    ((check_field_mismatches sim0 eC10 (crossrefToPaper crC10 rC10)).1.all
       (fun fmm => fmm.field_name ≠ "year") = true)
  ∧ ((check_field_mismatches sim0 eC10 (crossrefToPaper crC10 rC10)).2.all
       (fun fmm => fmm.field_name ≠ "year") = true) :=
  c10_year_skip.1 sim0 eC10 (crossrefToPaper crC10 rC10) (by decide)

end Bibtools
